import Mathlib

/-!
Verification of the SuperAGI LLM-adapter layer against its specification.

This file gives a shallow embedding, in Lean 4, of the pure logic of the
following modules of the repository:

- superagi/types/model_source_types.py  (enum lookup and model-source resolution)
- superagi/types/api_models.py          (model registry and release-date filters)
- superagi/llms/anthropic.py            (message conversion, error classification)
- superagi/llms/grok.py and superagi/llms/groq.py (response normalization,
  token-limit tables, access-key verification)
- superagi/config/config.py             (YAML and environment merging, modelled
  together with the documented source precedence of the pydantic-settings
  library it delegates to)

Vendor SDK calls are external effects; each embedded function takes the
outcome of the wrapped SDK call (success value or raised exception) as an
explicit argument, and raised Python exceptions are modelled with Except.
Python dictionaries returned to callers are modelled as association lists of
string keys and PyVal values, preserving insertion order.
-/

namespace SuperAGI

/-! Embedding of superagi/types/model_source_types.py -/

/-- The ModelSourceType enum. Constructor order follows the declaration order
of the members in the Python class body, which is the iteration order of the
member table used by get_model_source_type. -/
inductive ModelSourceType where
  | GooglePalm
  | OpenAI
  | Replicate
  | HuggingFace
  | LocalLLM
  | Anthropic
  deriving DecidableEq, Repr

/-- The attribute name of each enum member, as iterated by the member table. -/
def ModelSourceType.memberName : ModelSourceType → String
  | .GooglePalm => "GooglePalm"
  | .OpenAI => "OpenAI"
  | .Replicate => "Replicate"
  | .HuggingFace => "HuggingFace"
  | .LocalLLM => "LocalLLM"
  | .Anthropic => "Anthropic"

/-- The string value of each enum member. -/
def ModelSourceType.value : ModelSourceType → String
  | .GooglePalm => "Google Palm"
  | .OpenAI => "OpenAi"
  | .Replicate => "Replicate"
  | .HuggingFace => "Hugging Face"
  | .LocalLLM => "Local LLM"
  | .Anthropic => "Anthropic"

/-- The enum members in declaration order. -/
def ModelSourceType.membersInOrder : List ModelSourceType :=
  [.GooglePalm, .OpenAI, .Replicate, .HuggingFace, .LocalLLM, .Anthropic]

/-- Embedding of the Python str.upper method, restricted to the ASCII range
that the compared member names live in. -/
def pyUpper (s : String) : String :=
  String.mk (s.data.map Char.toUpper)

/-- Embedding of the Python expression s.replace(" ", ""), which removes every
space character. -/
def pyRemoveSpaces (s : String) : String :=
  String.mk (s.data.filter (fun c => c != ' '))

/-- The reassignment at the top of get_model_source_type:
name = name.upper().replace(" ", ""). -/
def normalizeSourceName (name : String) : String :=
  pyRemoveSpaces (pyUpper name)

/-- Embedding of ModelSourceType.get_model_source_type. The loop over the
member table returns the first member whose uppercased attribute name equals
the normalized input; falling through the loop raises a ValueError, modelled
as Except.error carrying the message string. -/
def get_model_source_type (name : String) : Except String ModelSourceType :=
  match ModelSourceType.membersInOrder.find?
      (fun m => normalizeSourceName name == pyUpper m.memberName) with
  | some m => Except.ok m
  | none => Except.error (normalizeSourceName name ++ " is not a valid vector store name.")

/-- The open_ai_models list of get_model_source_from_model. -/
def open_ai_models : List String :=
  ["gpt-4", "gpt-4-32k", "gpt-4-0125-preview", "gpt-4-1106-preview",
   "gpt-4-turbo", "gpt-4-turbo-2024-04-09", "gpt-4-turbo-preview",
   "gpt-4o", "gpt-4o-2024-08-06", "gpt-4o-mini", "gpt-4o-mini-2024-07-18",
   "o1-preview", "o1-mini",
   "gpt-3.5-turbo", "gpt-3.5-turbo-16k", "gpt-3.5-turbo-0125",
   "gpt-3.5-turbo-1106", "gpt-3.5-turbo-instruct"]

/-- The google_models list of get_model_source_from_model. -/
def google_models : List String :=
  ["gemini-1.5-pro", "gemini-1.5-flash", "gemini-1.0-pro",
   "gemini-pro", "gemini-pro-vision",
   "models/gemini-1.5-pro", "models/gemini-1.5-flash", "models/gemini-1.0-pro",
   "models/gemini-pro", "models/gemini-pro-vision",
   "google-palm-bison-001", "models/chat-bison-001", "models/text-bison-001"]

/-- The replicate_models list of get_model_source_from_model. -/
def replicate_models : List String :=
  ["meta/llama-2-70b-chat", "meta/llama-2-13b-chat", "meta/llama-2-7b-chat",
   "meta/codellama-70b-instruct", "meta/codellama-34b-instruct", "meta/codellama-13b-instruct",
   "replicate-llama13b-v2-chat", "llama-2-70b-chat", "llama-2-13b-chat", "llama-2-7b-chat",
   "codellama-34b-instruct", "codellama-13b-instruct"]

/-- The anthropic_models list of get_model_source_from_model. -/
def anthropic_models : List String :=
  ["claude-3-5-sonnet-20241022", "claude-3-5-sonnet-20240620", "claude-3-5-haiku-20241022",
   "claude-3-opus-20240229", "claude-3-sonnet-20240229", "claude-3-haiku-20240307",
   "claude-2.1", "claude-2.0", "claude-instant-1.2"]

/-- Embedding of ModelSourceType.get_model_source_from_model: four membership
tests in source order, with OpenAI as the fall-through result. -/
def get_model_source_from_model (model_name : String) : ModelSourceType :=
  if open_ai_models.contains model_name then ModelSourceType.OpenAI
  else if google_models.contains model_name then ModelSourceType.GooglePalm
  else if replicate_models.contains model_name then ModelSourceType.Replicate
  else if anthropic_models.contains model_name then ModelSourceType.Anthropic
  else ModelSourceType.OpenAI

/-! Embedding of superagi/types/api_models.py -/

/-- The ProviderType enum of api_models.py. -/
inductive ProviderType where
  | openai
  | anthropic
  | google
  | grok
  | groq
  | deepseek
  | mistral
  | replicate
  | huggingface
  | local_llm
  deriving DecidableEq, Repr

/-- The ModelCapability enum of api_models.py. -/
inductive ModelCapability where
  | text_generation
  | code_generation
  | reasoning
  | vision
  | multimodal
  | function_calling
  | json_mode
  deriving DecidableEq, Repr

/-- The ModelSpec record of api_models.py. Cost-per-token fields are Python
floats in the source; they are carried here as exact rationals, which the
release-date filters never inspect. -/
structure ModelSpec where
  name : String
  provider : ProviderType
  capabilities : List ModelCapability
  context_length : Nat
  max_output_tokens : Option Nat := none
  input_cost_per_token : Option ℚ := none
  output_cost_per_token : Option ℚ := none
  supports_streaming : Bool := true
  supports_functions : Bool := false
  supports_vision : Bool := false
  release_date : Option String := none
  deprecation_date : Option String := none
  description : String
  deriving DecidableEq, Repr

/-- The OPENAI_MODELS registry entries. -/
def OPENAI_MODELS : List ModelSpec :=
  [{ name := "gpt-4o-2025-01-15", provider := .openai,
     capabilities := [.text_generation, .code_generation, .reasoning, .vision, .function_calling],
     context_length := 200000, max_output_tokens := some 32768,
     input_cost_per_token := some 0.000002, output_cost_per_token := some 0.000008,
     supports_streaming := true, supports_functions := true, supports_vision := true,
     release_date := some "2025-01-15",
     description := "GPT-4o 2025: Latest multimodal model with enhanced context and improved efficiency" },
   { name := "o3-mini", provider := .openai,
     capabilities := [.text_generation, .code_generation, .reasoning],
     context_length := 200000, max_output_tokens := some 65536,
     input_cost_per_token := some 0.000002, output_cost_per_token := some 0.000008,
     supports_streaming := false, supports_functions := true, supports_vision := false,
     release_date := some "2025-01-20",
     description := "o3-mini: Advanced reasoning model with improved efficiency and cost-effectiveness" },
   { name := "o3", provider := .openai,
     capabilities := [.text_generation, .code_generation, .reasoning],
     context_length := 300000, max_output_tokens := some 100000,
     input_cost_per_token := some 0.00001, output_cost_per_token := some 0.00004,
     supports_streaming := false, supports_functions := true, supports_vision := false,
     release_date := some "2025-01-20",
     description := "o3: Most advanced reasoning model for complex scientific and mathematical problems" }]

/-- The ANTHROPIC_MODELS registry entries. -/
def ANTHROPIC_MODELS : List ModelSpec :=
  [{ name := "claude-3-5-sonnet-20250120", provider := .anthropic,
     capabilities := [.text_generation, .code_generation, .reasoning, .vision, .function_calling],
     context_length := 500000, max_output_tokens := some 16384,
     input_cost_per_token := some 0.000002, output_cost_per_token := some 0.00001,
     supports_streaming := true, supports_functions := true, supports_vision := true,
     release_date := some "2025-01-20",
     description := "Claude 3.5 Sonnet 2025: Enhanced model with expanded context and improved reasoning" },
   { name := "claude-3-5-haiku-20250115", provider := .anthropic,
     capabilities := [.text_generation, .code_generation, .reasoning],
     context_length := 400000, max_output_tokens := some 8192,
     input_cost_per_token := some 0.0000006, output_cost_per_token := some 0.000003,
     supports_streaming := true, supports_functions := true, supports_vision := false,
     release_date := some "2025-01-15",
     description := "Claude 3.5 Haiku 2025: Ultra-fast model with improved efficiency and cost" },
   { name := "claude-4-opus", provider := .anthropic,
     capabilities := [.text_generation, .code_generation, .reasoning, .vision, .multimodal],
     context_length := 1000000, max_output_tokens := some 32768,
     input_cost_per_token := some 0.000008, output_cost_per_token := some 0.000032,
     supports_streaming := true, supports_functions := true, supports_vision := true,
     release_date := some "2025-01-10",
     description := "Claude 4 Opus: Most advanced Claude model with massive context and multimodal capabilities" }]

/-- The GOOGLE_MODELS registry entries. -/
def GOOGLE_MODELS : List ModelSpec :=
  [{ name := "gemini-2.0-flash", provider := .google,
     capabilities := [.text_generation, .code_generation, .reasoning, .vision, .multimodal],
     context_length := 2000000, max_output_tokens := some 32768,
     input_cost_per_token := some 0.00000005, output_cost_per_token := some 0.0000002,
     supports_streaming := true, supports_functions := true, supports_vision := true,
     release_date := some "2025-01-05",
     description := "Gemini 2.0 Flash: Next-generation Google model with ultra-fast inference and massive context" },
   { name := "gemini-2.0-pro", provider := .google,
     capabilities := [.text_generation, .code_generation, .reasoning, .vision, .multimodal],
     context_length := 5000000, max_output_tokens := some 65536,
     input_cost_per_token := some 0.0000008, output_cost_per_token := some 0.000003,
     supports_streaming := true, supports_functions := true, supports_vision := true,
     release_date := some "2025-01-15",
     description := "Gemini 2.0 Pro: Most advanced Google model with 5M token context and superior reasoning" }]

/-- The GROK_MODELS registry entries. -/
def GROK_MODELS : List ModelSpec :=
  [{ name := "grok-2", provider := .grok,
     capabilities := [.text_generation, .code_generation, .reasoning, .vision],
     context_length := 200000, max_output_tokens := some 32768,
     input_cost_per_token := some 0.000003, output_cost_per_token := some 0.00001,
     supports_streaming := true, supports_functions := true, supports_vision := true,
     release_date := some "2025-01-08",
     description := "Grok 2: xAI next-generation conversational AI with enhanced reasoning and multimodal capabilities" }]

/-- The GROQ_MODELS registry entries. -/
def GROQ_MODELS : List ModelSpec :=
  [{ name := "llama-3.3-70b-versatile", provider := .groq,
     capabilities := [.text_generation, .code_generation, .reasoning],
     context_length := 300000, max_output_tokens := some 65536,
     input_cost_per_token := some 0.0000004, output_cost_per_token := some 0.0000006,
     supports_streaming := true, supports_functions := true, supports_vision := false,
     release_date := some "2025-01-12",
     description := "Llama 3.3 70B on Groq: Latest Meta model with enhanced capabilities and ultra-fast inference" },
   { name := "llama-3.3-8b-instant", provider := .groq,
     capabilities := [.text_generation, .code_generation, .reasoning],
     context_length := 300000, max_output_tokens := some 32768,
     input_cost_per_token := some 0.00000003, output_cost_per_token := some 0.00000005,
     supports_streaming := true, supports_functions := true, supports_vision := false,
     release_date := some "2025-01-12",
     description := "Llama 3.3 8B on Groq: Cost-effective model with lightning-fast inference speed" }]

/-- The DEEPSEEK_MODELS registry entries. -/
def DEEPSEEK_MODELS : List ModelSpec :=
  [{ name := "deepseek-v3", provider := .deepseek,
     capabilities := [.text_generation, .code_generation, .reasoning],
     context_length := 200000, max_output_tokens := some 32768,
     input_cost_per_token := some 0.0000001, output_cost_per_token := some 0.0000005,
     supports_streaming := true, supports_functions := true, supports_vision := false,
     release_date := some "2025-01-05",
     description := "DeepSeek V3: Advanced coding and reasoning model with exceptional performance" }]

/-- The MISTRAL_MODELS registry entries. -/
def MISTRAL_MODELS : List ModelSpec :=
  [{ name := "mistral-large-2-2025", provider := .mistral,
     capabilities := [.text_generation, .code_generation, .reasoning, .function_calling],
     context_length := 300000, max_output_tokens := some 32768,
     input_cost_per_token := some 0.000001, output_cost_per_token := some 0.000005,
     supports_streaming := true, supports_functions := true, supports_vision := false,
     release_date := some "2025-01-18",
     description := "Mistral Large 2 2025: Enhanced European AI model with superior multilingual capabilities" }]

/-- The consolidated ALL_MODELS registry. -/
def ALL_MODELS : List ModelSpec :=
  OPENAI_MODELS ++ ANTHROPIC_MODELS ++ GOOGLE_MODELS ++ GROK_MODELS ++
    GROQ_MODELS ++ DEEPSEEK_MODELS ++ MISTRAL_MODELS

/-- Code points of a string; Python compares strings by code points. -/
def pyCodes (s : String) : List Nat :=
  s.data.map Char.toNat

/-- Embedding of the Python string comparison a <= b as lexicographic
comparison of code-point sequences, a shorter string preceding every strict
extension of it. -/
def pyStrLeB : List Nat → List Nat → Bool
  | [], _ => true
  | _ :: _, [] => false
  | a :: as, b :: bs => if a < b then true else if a = b then pyStrLeB as bs else false

/-- Embedding of the Python s.startswith(p) test: pyStartsWithB p s decides
whether the code points p are an initial segment of the code points s. -/
def pyStartsWithB : List Nat → List Nat → Bool
  | [], _ => true
  | _ :: _, [] => false
  | a :: as, b :: bs => a == b && pyStartsWithB as bs

/-- The list-comprehension condition of get_latest_models:
model.release_date and model.release_date.startswith("2025"). -/
def latestFilter (m : ModelSpec) : Bool :=
  match m.release_date with
  | some d => pyStartsWithB (pyCodes "2025") (pyCodes d)
  | none => false

/-- The list-comprehension condition of get_2025_models:
model.release_date and model.release_date >= "2025-01-01". -/
def releasedFrom2025Filter (m : ModelSpec) : Bool :=
  match m.release_date with
  | some d => pyStrLeB (pyCodes "2025-01-01") (pyCodes d)
  | none => false

/-- Embedding of get_latest_models. -/
def get_latest_models : List ModelSpec :=
  ALL_MODELS.filter latestFilter

/-- Embedding of get_2025_models. -/
def get_2025_models : List ModelSpec :=
  ALL_MODELS.filter releasedFrom2025Filter

/-! Shared chat-message and Python-value modelling for the LLM adapters. -/

/-- A chat message dictionary with role and content keys, the element shape
of the messages argument of every chat_completion method. -/
structure ChatMessage where
  role : String
  content : String
  deriving DecidableEq, Repr

/-- A content block of an Anthropic SDK response; chat_completion reads only
its text attribute. -/
structure AnthContentBlock where
  text : String
  deriving DecidableEq, Repr

/-- The part of an Anthropic SDK response object that chat_completion reads:
the content list. -/
structure AnthResponse where
  content : List AnthContentBlock
  deriving DecidableEq, Repr

/-- Python values appearing in the dictionaries the adapters return. -/
inductive PyVal where
  | pyNone
  | pyStr (s : String)
  | pyNat (n : Nat)
  | pyList (xs : List PyVal)
  | pyDict (xs : List (String × PyVal))
  | pyAnthResponse (r : AnthResponse)

/-- Lookup of a key in a dictionary modelled as an ordered association list;
none models a KeyError / a missing key. -/
def dictLookup (d : List (String × PyVal)) (k : String) : Option PyVal :=
  match d with
  | [] => none
  | (k2, v) :: rest => if k == k2 then some v else dictLookup rest k

/-- A nullable string attribute rendered as a Python value. -/
def pyValOfOptStr : Option String → PyVal
  | some s => PyVal.pyStr s
  | none => PyVal.pyNone

/-- Embedding of the Python expression x or d for an optional integer x: the
left operand wins exactly when it is truthy, so both None and 0 fall back to
the default. -/
def pyOrNat (x : Option Nat) (dflt : Nat) : Nat :=
  match x with
  | some n => if n ≠ 0 then n else dflt
  | none => dflt

/-! Embedding of superagi/llms/anthropic.py -/

/-- The dynamic class of an exception reaching the except chain of
Anthropic.chat_completion. In the anthropic SDK, RateLimitError and
AuthenticationError are both subclasses of APIError, and every class here is
a subclass of Exception; otherError stands for any exception outside the
APIError hierarchy. -/
inductive AnthExcClass where
  | rateLimitError
  | authenticationError
  | apiError
  | otherError
  deriving DecidableEq, Repr

/-- An exception value: its dynamic class and its str() rendering. -/
structure AnthExc where
  cls : AnthExcClass
  message : String
  deriving DecidableEq, Repr

/-- The four except clauses of Anthropic.chat_completion, in source order. -/
inductive AnthHandler where
  | onRateLimit
  | onAuthentication
  | onAPIError
  | onException
  deriving DecidableEq, Repr

/-- The Python isinstance test of an exception class against the class named
by an except clause, under the anthropic SDK class hierarchy described at
AnthExcClass. -/
def anthIsInstance (c : AnthExcClass) : AnthHandler → Bool
  | .onRateLimit => c == .rateLimitError
  | .onAuthentication => c == .authenticationError
  | .onAPIError => c == .rateLimitError || c == .authenticationError || c == .apiError
  | .onException => true

/-- The except clauses in the order Python tries them. -/
def anthHandlerChain : List AnthHandler :=
  [.onRateLimit, .onAuthentication, .onAPIError, .onException]

/-- Python exception dispatch: the first except clause whose class matches
the raised exception handles it; the final clause catches Exception, which
every modelled exception is an instance of. -/
def anthDispatch (c : AnthExcClass) : AnthHandler :=
  (anthHandlerChain.find? (fun h => anthIsInstance c h)).getD .onException

/-- The constructor state of the Anthropic class, with the Python default
arguments as field defaults; the temperature float 0.6 is carried exactly. -/
structure Anthropic where
  api_key : String := "test-key"
  model : String := "claude-3-5-sonnet-20241022"
  temperature : ℚ := 0.6
  max_tokens : Nat := 8192

/-- The keyword arguments of the self.client.messages.create call made by
Anthropic.chat_completion; system is none when the system keyword is not
passed at all (the else branch of the call site). -/
structure AnthRequest where
  model : String
  max_tokens : Nat
  temperature : ℚ
  system : Option String
  messages : List ChatMessage

/-- The message-conversion loop of Anthropic.chat_completion: a single pass
over messages that appends every non-system message (as a fresh role/content
dictionary) and overwrites the system accumulator, initially the empty
string, with the content of every system message. Returns the pair of the
anthropic_messages list and the final system_message string. -/
def Anthropic.convertMessages (messages : List ChatMessage) : List ChatMessage × String :=
  messages.foldl
    (fun acc m =>
      if m.role == "system" then (acc.1, m.content)
      else (acc.1 ++ [{ role := m.role, content := m.content }], acc.2))
    ([], "")

/-- The request Anthropic.chat_completion hands to the SDK: converted
messages, the token limit max_tokens or self.max_tokens under Python or
semantics, and the system keyword passed exactly when the accumulated
system_message string is truthy, i.e. non-empty. -/
def Anthropic.buildRequest (self : Anthropic) (messages : List ChatMessage)
    (maxTokens : Option Nat) : AnthRequest :=
  let conv := Anthropic.convertMessages messages
  if conv.2 ≠ "" then
    { model := self.model, max_tokens := pyOrNat maxTokens self.max_tokens,
      temperature := self.temperature, system := some conv.2, messages := conv.1 }
  else
    { model := self.model, max_tokens := pyOrNat maxTokens self.max_tokens,
      temperature := self.temperature, system := none, messages := conv.1 }

/-- The dictionary returned by the except chain of Anthropic.chat_completion
for a caught exception, keyed by the handler that Python dispatch selects. -/
def Anthropic.errorResult (e : AnthExc) : List (String × PyVal) :=
  match anthDispatch e.cls with
  | .onRateLimit =>
    [("error", PyVal.pyStr "ERROR_RATE_LIMIT"),
     ("message", PyVal.pyStr ("Rate limit exceeded: " ++ e.message))]
  | .onAuthentication =>
    [("error", PyVal.pyStr "ERROR_AUTHENTICATION"),
     ("message", PyVal.pyStr ("Authentication error: " ++ e.message))]
  | .onAPIError =>
    [("error", PyVal.pyStr "ERROR_API"),
     ("message", PyVal.pyStr ("API error: " ++ e.message))]
  | .onException =>
    [("error", PyVal.pyStr "ERROR_ANTHROPIC"),
     ("message", PyVal.pyStr ("Anthropic exception: " ++ e.message))]

/-- Embedding of Anthropic.chat_completion. The create argument is the
wrapped SDK call: it receives the built request and either returns a
response or raises. On success the method reads response.content[0].text and
returns the response/content dictionary; the indexing of an empty content
list raises an IndexError, which the final except clause of the same try
block catches, so it yields the ERROR_ANTHROPIC dictionary with the str()
rendering of an IndexError. A raised SDK exception is mapped through the
except chain. -/
def Anthropic.chat_completion (self : Anthropic)
    (create : AnthRequest → Except AnthExc AnthResponse)
    (messages : List ChatMessage) (maxTokens : Option Nat) : List (String × PyVal) :=
  match create (Anthropic.buildRequest self messages maxTokens) with
  | Except.ok response =>
    match response.content with
    | [] =>
      [("error", PyVal.pyStr "ERROR_ANTHROPIC"),
       ("message", PyVal.pyStr "Anthropic exception: list index out of range")]
    | block :: _ =>
      [("response", PyVal.pyAnthResponse response), ("content", PyVal.pyStr block.text)]
  | Except.error e => Anthropic.errorResult e

/-- Embedding of Anthropic.verify_access_key: the probe argument is the
outcome of the minimal self.client.messages.create call; the method returns
True on success and False when the probe raises. -/
def Anthropic.verify_access_key (probe : Except AnthExc AnthResponse) : Bool :=
  match probe with
  | Except.ok _ => true
  | Except.error _ => false

/-! Embedding of superagi/llms/grok.py and superagi/llms/groq.py -/

/-- A raised Python exception carrying its str() rendering. -/
structure PyExc where
  message : String
  deriving DecidableEq, Repr

/-- The message attribute of an OpenAI-compatible SDK choice; content is
nullable. -/
structure OAIMessage where
  content : Option String
  role : String
  deriving DecidableEq, Repr

/-- A choice of an OpenAI-compatible SDK response. -/
structure OAIChoice where
  message : OAIMessage
  finish_reason : Option String
  deriving DecidableEq, Repr

/-- The usage block of an OpenAI-compatible SDK response. -/
structure OAIUsage where
  prompt_tokens : Nat
  completion_tokens : Nat
  total_tokens : Nat
  deriving DecidableEq, Repr

/-- The part of an OpenAI-compatible SDK response that the Grok and Groq
adapters read: the choices list and the nullable usage block. -/
structure OAIResponse where
  choices : List OAIChoice
  usage : Option OAIUsage
  deriving DecidableEq, Repr

/-- The normalized dictionary both Grok.chat_completion and
Groq.chat_completion build from the first choice and the usage block of a
successful response; each usage field is the conditional expression
field if response.usage else 0. -/
def oaiNormalizedResult (choice0 : OAIChoice) (usage : Option OAIUsage) :
    List (String × PyVal) :=
  [("choices", PyVal.pyList
      [PyVal.pyDict
        [("message", PyVal.pyDict
            [("content", pyValOfOptStr choice0.message.content),
             ("role", PyVal.pyStr choice0.message.role)]),
         ("finish_reason", pyValOfOptStr choice0.finish_reason)]]),
   ("usage", PyVal.pyDict
      [("prompt_tokens", PyVal.pyNat (match usage with | some u => u.prompt_tokens | none => 0)),
       ("completion_tokens", PyVal.pyNat (match usage with | some u => u.completion_tokens | none => 0)),
       ("total_tokens", PyVal.pyNat (match usage with | some u => u.total_tokens | none => 0))])]

/-- Embedding of Grok.chat_completion. The vendor argument is the outcome of
the wrapped self.client.chat.completions.create call. Any exception inside
the try block, including the IndexError from response.choices[0] on an empty
choices list, is caught and re-raised as a fresh Exception whose message
prefixes the original str() rendering with the provider tag, so the
embedding returns Except.error rather than a dictionary in every failure
case. -/
def Grok.chat_completion (vendor : Except PyExc OAIResponse) :
    Except PyExc (List (String × PyVal)) :=
  match vendor with
  | Except.error e => Except.error { message := "Grok API error: " ++ e.message }
  | Except.ok response =>
    match response.choices with
    | [] => Except.error { message := "Grok API error: list index out of range" }
    | choice0 :: _ => Except.ok (oaiNormalizedResult choice0 response.usage)

/-- Embedding of Grok.generate_text: it forwards to chat_completion and
indexes the returned dictionary with response["choices"][0]["message"]["content"];
a missing key or empty list would raise, and a raised exception from
chat_completion propagates unchanged. -/
def Grok.generate_text (vendor : Except PyExc OAIResponse) :
    Except PyExc (Option String) :=
  match Grok.chat_completion vendor with
  | Except.error e => Except.error e
  | Except.ok d =>
    match dictLookup d "choices" with
    | some (PyVal.pyList (PyVal.pyDict c0 :: _)) =>
      match dictLookup c0 "message" with
      | some (PyVal.pyDict msgd) =>
        match dictLookup msgd "content" with
        | some (PyVal.pyStr s) => Except.ok (some s)
        | some PyVal.pyNone => Except.ok none
        | _ => Except.error { message := "KeyError: content" }
      | _ => Except.error { message := "KeyError: message" }
    | some (PyVal.pyList []) => Except.error { message := "list index out of range" }
    | _ => Except.error { message := "KeyError: choices" }

/-- Embedding of Grok.verify_access_key: the bare except around the
generate_text probe maps any raised exception to False and success to True. -/
def Grok.verify_access_key (vendor : Except PyExc OAIResponse) : Bool :=
  match Grok.generate_text vendor with
  | Except.ok _ => true
  | Except.error _ => false

/-- Python dict.get with a default, for the static token-limit tables. -/
def dictGetNat (d : List (String × Nat)) (k : String) (dflt : Nat) : Nat :=
  match d with
  | [] => dflt
  | (k2, v) :: rest => if k == k2 then v else dictGetNat rest k dflt

/-- Embedding of Grok.get_token_limit and its token_limits table. -/
def Grok.get_token_limit (model : String) : Nat :=
  dictGetNat [("grok-beta", 131072), ("grok-1", 131072)] model 131072

/-- Embedding of Groq.chat_completion; identical to the Grok variant except
for the provider tag in the re-raised message. -/
def Groq.chat_completion (vendor : Except PyExc OAIResponse) :
    Except PyExc (List (String × PyVal)) :=
  match vendor with
  | Except.error e => Except.error { message := "Groq API error: " ++ e.message }
  | Except.ok response =>
    match response.choices with
    | [] => Except.error { message := "Groq API error: list index out of range" }
    | choice0 :: _ => Except.ok (oaiNormalizedResult choice0 response.usage)

/-- Embedding of Groq.generate_text, forwarding to Groq.chat_completion with
the same dictionary indexing as the Grok variant. -/
def Groq.generate_text (vendor : Except PyExc OAIResponse) :
    Except PyExc (Option String) :=
  match Groq.chat_completion vendor with
  | Except.error e => Except.error e
  | Except.ok d =>
    match dictLookup d "choices" with
    | some (PyVal.pyList (PyVal.pyDict c0 :: _)) =>
      match dictLookup c0 "message" with
      | some (PyVal.pyDict msgd) =>
        match dictLookup msgd "content" with
        | some (PyVal.pyStr s) => Except.ok (some s)
        | some PyVal.pyNone => Except.ok none
        | _ => Except.error { message := "KeyError: content" }
      | _ => Except.error { message := "KeyError: message" }
    | some (PyVal.pyList []) => Except.error { message := "list index out of range" }
    | _ => Except.error { message := "KeyError: choices" }

/-- Embedding of Groq.verify_access_key. -/
def Groq.verify_access_key (vendor : Except PyExc OAIResponse) : Bool :=
  match Groq.generate_text vendor with
  | Except.ok _ => true
  | Except.error _ => false

/-- Embedding of Groq.get_token_limit and its token_limits table. -/
def Groq.get_token_limit (model : String) : Nat :=
  dictGetNat
    [("llama-3.1-70b-versatile", 131072), ("llama-3.1-8b-instant", 131072),
     ("llama-3-70b-8192", 8192), ("llama-3-8b-8192", 8192),
     ("mixtral-8x7b-32768", 32768), ("gemma-7b-it", 8192)]
    model 8192

/-! Embedding of superagi/config/config.py -/

/-- Lookup in a string-to-string mapping modelled as an association list. -/
def strLookup (d : List (String × String)) (k : String) : Option String :=
  match d with
  | [] => none
  | (k2, v) :: rest => if k == k2 then some v else strLookup rest k

/-- Resolution of one Config field by the pydantic-settings library that the
Config class subclasses: with the default source customization, values
passed explicitly to the constructor take precedence over environment
variables, which take precedence over the field default. -/
def settingsResolve (initArgs env : List (String × String))
    (alias_ dflt : String) : String :=
  match strLookup initArgs alias_ with
  | some v => v
  | none =>
    match strLookup env alias_ with
    | some v => v
    | none => dflt

/-- Embedding of Config.load_from_yaml for one field: the YAML mapping read
from the file is passed as the constructor keyword arguments, cls(**config_data),
so it occupies the init-argument slot of the pydantic-settings source order
while the environment occupies the env slot. -/
def Config.load_from_yaml (yamlData env : List (String × String))
    (alias_ dflt : String) : String :=
  settingsResolve yamlData env alias_ dflt

/-! Theorems -/

/-- C3: get_model_source_from_model returns OpenAI for names in the OpenAI
list, GooglePalm for names in the Google list, Replicate for names in the
Replicate list, Anthropic for names in the Anthropic list, and OpenAI for
every name in none of the four lists, the lists being tested in that order. -/
theorem c3_model_source_resolution (model_name : String) :
    get_model_source_from_model model_name =
      if model_name ∈ open_ai_models then ModelSourceType.OpenAI
      else if model_name ∈ google_models then ModelSourceType.GooglePalm
      else if model_name ∈ replicate_models then ModelSourceType.Replicate
      else if model_name ∈ anthropic_models then ModelSourceType.Anthropic
      else ModelSourceType.OpenAI := by
  simp only [get_model_source_from_model, List.contains, List.elem_iff]

/-- C8: get_model_source_type matches its input case-insensitively and
ignoring spaces against the enum member names, returning the matching member
and otherwise a ValueError whose message calls the normalized name not a
valid vector store name. -/
theorem c8_model_source_type_matching (name : String) :
    (∀ m : ModelSourceType, normalizeSourceName name = pyUpper m.memberName →
        get_model_source_type name = Except.ok m) ∧
    ((∀ m : ModelSourceType, normalizeSourceName name ≠ pyUpper m.memberName) →
        get_model_source_type name =
          Except.error (normalizeSourceName name ++ " is not a valid vector store name.")) := by
  constructor
  · intro m h
    cases m <;> simp only [get_model_source_type, h] <;> rfl
  · intro h
    have hnone : ModelSourceType.membersInOrder.find?
        (fun m => normalizeSourceName name == pyUpper m.memberName) = none := by
      apply List.find?_eq_none.mpr
      intro m _
      simp only [beq_iff_eq]
      exact h m
    unfold get_model_source_type
    rw [hnone]

/-- C8 witness: the two branches of c8_model_source_type_matching at the
concrete inputs Google Palm and INVALIDSOURCE. -/
theorem c8_witness :
    get_model_source_type "Google Palm" = Except.ok ModelSourceType.GooglePalm ∧
    get_model_source_type "INVALIDSOURCE" =
      Except.error "INVALIDSOURCE is not a valid vector store name." := by
  constructor
  · exact (c8_model_source_type_matching "Google Palm").1 ModelSourceType.GooglePalm (by decide)
  · exact ((c8_model_source_type_matching "INVALIDSOURCE").2
      (by intro m; cases m <;> decide)).trans (congrArg Except.error (by decide))

/-- C10: over the current ALL_MODELS registry get_latest_models and
get_2025_models compute the same list, but the two filters are not
equivalent: any model whose release date carries a four-digit year of 2026
or later passes the release_date >= "2025-01-01" filter of get_2025_models
while failing the startswith("2025") filter of get_latest_models. -/
theorem c10_latest_vs_2025_models :
    get_latest_models = get_2025_models ∧
    ∀ (m : ModelSpec) (d : String), m.release_date = some d →
      (∃ a b c e rest, pyCodes d = a :: b :: c :: e :: rest ∧
        48 ≤ a ∧ a ≤ 57 ∧ 48 ≤ b ∧ b ≤ 57 ∧ 48 ≤ c ∧ c ≤ 57 ∧ 48 ≤ e ∧ e ≤ 57 ∧
        2026 ≤ (a - 48) * 1000 + (b - 48) * 100 + (c - 48) * 10 + (e - 48)) →
      releasedFrom2025Filter m = true ∧ latestFilter m = false := by
  constructor
  · rfl
  · rintro m d hd ⟨a, b, c, e, rest, hcodes, ha1, ha2, hb1, hb2, hc1, hc2, he1, he2, hval⟩
    have h2025 : pyCodes "2025-01-01" = [50, 48, 50, 53, 45, 48, 49, 45, 48, 49] := by decide
    have h2025p : pyCodes "2025" = [50, 48, 50, 53] := by decide
    constructor
    · simp only [releasedFrom2025Filter, hd, h2025, hcodes, pyStrLeB]
      split_ifs <;> first | rfl | omega
    · simp only [latestFilter, hd, h2025p, hcodes, pyStartsWithB]
      rw [Bool.eq_false_iff]
      intro hcontra
      simp only [Bool.and_eq_true, beq_iff_eq] at hcontra
      omega

/-- C10 witness: a hypothetical registry entry released on 2026-03-01 is
accepted by the filter of get_2025_models and rejected by the filter of
get_latest_models. -/
theorem c10_witness :
    releasedFrom2025Filter
        { name := "future-model", provider := ProviderType.openai, capabilities := [],
          context_length := 128000, release_date := some "2026-03-01",
          description := "hypothetical future model" } = true ∧
    latestFilter
        { name := "future-model", provider := ProviderType.openai, capabilities := [],
          context_length := 128000, release_date := some "2026-03-01",
          description := "hypothetical future model" } = false :=
  c10_latest_vs_2025_models.2 _ "2026-03-01" rfl
    ⟨50, 48, 50, 54, [45, 48, 51, 45, 48, 49], by decide, by decide, by decide, by decide,
     by decide, by decide, by decide, by decide, by decide, by decide⟩

/-- C1 counterexample: an exception raised by the wrapped vendor call inside
Grok.chat_completion is not turned into an error dictionary; the method
raises a fresh wrapped exception, so the claim that every adapter returns a
tagged error dictionary without propagating fails at this input. -/
theorem c1_counterexample :
    Grok.chat_completion (Except.error { message := "boom" }) =
      Except.error { message := "Grok API error: boom" } := rfl

/-- C1 as amended: Anthropic.chat_completion turns every exception raised by
the wrapped vendor call into a dictionary tagged with an error and a message
and never propagates, while Grok.chat_completion and Groq.chat_completion
catch any such exception and re-raise it wrapped in a new Exception whose
message carries the provider prefix, propagating to the caller. -/
theorem c1_error_handling :
    (∀ (self : Anthropic) (e : AnthExc) (messages : List ChatMessage) (maxTokens : Option Nat),
      ∃ tag msg,
        Anthropic.chat_completion self (fun _ => Except.error e) messages maxTokens =
          [("error", PyVal.pyStr tag), ("message", PyVal.pyStr msg)]) ∧
    (∀ e : PyExc, Grok.chat_completion (Except.error e) =
        Except.error { message := "Grok API error: " ++ e.message }) ∧
    (∀ e : PyExc, Groq.chat_completion (Except.error e) =
        Except.error { message := "Groq API error: " ++ e.message }) := by
  refine ⟨?_, fun e => rfl, fun e => rfl⟩
  intro self e messages maxTokens
  obtain ⟨cls, msg⟩ := e
  cases cls
  · exact ⟨"ERROR_RATE_LIMIT", "Rate limit exceeded: " ++ msg, rfl⟩
  · exact ⟨"ERROR_AUTHENTICATION", "Authentication error: " ++ msg, rfl⟩
  · exact ⟨"ERROR_API", "API error: " ++ msg, rfl⟩
  · exact ⟨"ERROR_ANTHROPIC", "Anthropic exception: " ++ msg, rfl⟩

/-- C2 counterexample: on a successful vendor response the dictionary
returned by Anthropic.chat_completion has no choices key at all, so the
claim that every adapter returns the common choices/usage shape fails. -/
theorem c2_counterexample :
    dictLookup
      (Anthropic.chat_completion {}
        (fun _ => Except.ok { content := [{ text := "hello" }] })
        [{ role := "user", content := "hi" }] none)
      "choices" = none := rfl

/-- C2 as amended: Grok.chat_completion and Groq.chat_completion normalize
every successful vendor response holding at least one choice into the common
dictionary whose choices entry carries the first choice message content,
role and finish_reason and whose usage entry carries prompt_tokens,
completion_tokens and total_tokens, each 0 when the vendor reports no usage;
Anthropic.chat_completion instead returns a response/content dictionary on a
successful response with at least one content block. -/
theorem c2_normalized_shapes :
    (∀ (response : OAIResponse) (choice0 : OAIChoice) (rest : List OAIChoice),
      response.choices = choice0 :: rest →
      Grok.chat_completion (Except.ok response) =
          Except.ok (oaiNormalizedResult choice0 response.usage) ∧
      Groq.chat_completion (Except.ok response) =
          Except.ok (oaiNormalizedResult choice0 response.usage)) ∧
    (∀ (choice0 : OAIChoice) (u : Option OAIUsage),
      dictLookup (oaiNormalizedResult choice0 u) "choices" =
        some (PyVal.pyList
          [PyVal.pyDict
            [("message", PyVal.pyDict
                [("content", pyValOfOptStr choice0.message.content),
                 ("role", PyVal.pyStr choice0.message.role)]),
             ("finish_reason", pyValOfOptStr choice0.finish_reason)]]) ∧
      dictLookup (oaiNormalizedResult choice0 none) "usage" =
        some (PyVal.pyDict
          [("prompt_tokens", PyVal.pyNat 0), ("completion_tokens", PyVal.pyNat 0),
           ("total_tokens", PyVal.pyNat 0)]) ∧
      ∀ usage : OAIUsage,
        dictLookup (oaiNormalizedResult choice0 (some usage)) "usage" =
          some (PyVal.pyDict
            [("prompt_tokens", PyVal.pyNat usage.prompt_tokens),
             ("completion_tokens", PyVal.pyNat usage.completion_tokens),
             ("total_tokens", PyVal.pyNat usage.total_tokens)])) ∧
    (∀ (self : Anthropic) (messages : List ChatMessage) (maxTokens : Option Nat)
       (response : AnthResponse) (b : AnthContentBlock) (bs : List AnthContentBlock),
      response.content = b :: bs →
      Anthropic.chat_completion self (fun _ => Except.ok response) messages maxTokens =
        [("response", PyVal.pyAnthResponse response), ("content", PyVal.pyStr b.text)]) := by
  refine ⟨?_, fun choice0 u => ⟨rfl, rfl, fun usage => rfl⟩, ?_⟩
  · intro response choice0 rest h
    obtain ⟨choices, usage⟩ := response
    cases h
    exact ⟨rfl, rfl⟩
  · intro self messages maxTokens response b bs h
    obtain ⟨content⟩ := response
    cases h
    rfl

/-- C2 witness: the normalization and the Anthropic deviation evaluated at
concrete single-choice and single-block responses. -/
theorem c2_witness :
    Grok.chat_completion
        (Except.ok { choices := [{ message := { content := some "hi", role := "assistant" },
                                   finish_reason := some "stop" }], usage := none }) =
      Except.ok (oaiNormalizedResult
        { message := { content := some "hi", role := "assistant" },
          finish_reason := some "stop" } none) ∧
    Anthropic.chat_completion {} (fun _ => Except.ok { content := [{ text := "hey" }] }) [] none =
      [("response", PyVal.pyAnthResponse { content := [{ text := "hey" }] }),
       ("content", PyVal.pyStr "hey")] := by
  constructor
  · exact (c2_normalized_shapes.1 _ _ [] rfl).1
  · exact c2_normalized_shapes.2.2 {} [] none _ _ [] rfl

/-- C4: every verify_access_key is a total boolean function of the probe
outcome, true exactly when the probe succeeds; for Grok and Groq the probe
is the generate_text call on the message Hello, and at the vendor level a
raised exception gives false while a successful completion with at least one
choice gives true. -/
theorem c4_verify_access_key :
    (∀ probe : Except AnthExc AnthResponse,
      Anthropic.verify_access_key probe = probe.isOk) ∧
    (∀ vendor : Except PyExc OAIResponse,
      Grok.verify_access_key vendor = (Grok.generate_text vendor).isOk ∧
      Groq.verify_access_key vendor = (Groq.generate_text vendor).isOk) ∧
    (∀ e : PyExc,
      Grok.verify_access_key (Except.error e) = false ∧
      Groq.verify_access_key (Except.error e) = false) ∧
    (∀ (response : OAIResponse) (choice0 : OAIChoice) (rest : List OAIChoice),
      response.choices = choice0 :: rest →
      Grok.verify_access_key (Except.ok response) = true ∧
      Groq.verify_access_key (Except.ok response) = true) := by
  refine ⟨fun probe => ?_, fun vendor => ⟨?_, ?_⟩, fun e => ⟨rfl, rfl⟩, ?_⟩
  · cases probe <;> rfl
  · cases h : Grok.generate_text vendor <;>
      simp only [Grok.verify_access_key, h] <;> rfl
  · cases h : Groq.generate_text vendor <;>
      simp only [Groq.verify_access_key, h] <;> rfl
  · intro response choice0 rest h
    obtain ⟨choices, usage⟩ := response
    cases h
    constructor <;>
      cases hc : choice0.message.content <;>
        simp [Grok.verify_access_key, Groq.verify_access_key, Grok.generate_text,
          Groq.generate_text, Grok.chat_completion, Groq.chat_completion,
          oaiNormalizedResult, dictLookup, pyValOfOptStr, hc]

/-- C4 witness: a successful one-choice probe yields true and a raised probe
yields false, at concrete inputs. -/
theorem c4_witness :
    Grok.verify_access_key
        (Except.ok { choices := [{ message := { content := some "Hello!", role := "assistant" },
                                   finish_reason := some "stop" }], usage := none }) = true ∧
    Groq.verify_access_key (Except.error { message := "invalid api key" }) = false := by
  constructor
  · exact (c4_verify_access_key.2.2.2 _ _ [] rfl).1
  · exact (c4_verify_access_key.2.2.1 { message := "invalid api key" }).2

/-- C5: for every exception raised by the wrapped vendor call, the error
field of the dictionary Anthropic.chat_completion returns is determined by
the exception class through the ordered except chain exactly as claimed, and
lies in the fixed four-value vocabulary. -/
theorem c5_anthropic_error_vocabulary
    (self : Anthropic) (e : AnthExc) (messages : List ChatMessage) (maxTokens : Option Nat) :
    dictLookup (Anthropic.chat_completion self (fun _ => Except.error e) messages maxTokens)
        "error" =
      some (PyVal.pyStr (match e.cls with
        | AnthExcClass.rateLimitError => "ERROR_RATE_LIMIT"
        | AnthExcClass.authenticationError => "ERROR_AUTHENTICATION"
        | AnthExcClass.apiError => "ERROR_API"
        | AnthExcClass.otherError => "ERROR_ANTHROPIC")) ∧
    (match e.cls with
        | AnthExcClass.rateLimitError => "ERROR_RATE_LIMIT"
        | AnthExcClass.authenticationError => "ERROR_AUTHENTICATION"
        | AnthExcClass.apiError => "ERROR_API"
        | AnthExcClass.otherError => "ERROR_ANTHROPIC")
      ∈ ["ERROR_RATE_LIMIT", "ERROR_AUTHENTICATION", "ERROR_API", "ERROR_ANTHROPIC"] := by
  obtain ⟨cls, msg⟩ := e
  cases cls <;> exact ⟨rfl, by simp⟩

/-- C6: Grok.get_token_limit returns 131072 for every model name, known or
unknown; Groq.get_token_limit returns the per-model table entry for each of
the six table keys and 8192 for every name outside the table. -/
theorem c6_token_limit_tables :
    (∀ model : String, Grok.get_token_limit model = 131072) ∧
    Groq.get_token_limit "llama-3.1-70b-versatile" = 131072 ∧
    Groq.get_token_limit "llama-3.1-8b-instant" = 131072 ∧
    Groq.get_token_limit "llama-3-70b-8192" = 8192 ∧
    Groq.get_token_limit "llama-3-8b-8192" = 8192 ∧
    Groq.get_token_limit "mixtral-8x7b-32768" = 32768 ∧
    Groq.get_token_limit "gemma-7b-it" = 8192 ∧
    (∀ model : String,
      model ∉ ["llama-3.1-70b-versatile", "llama-3.1-8b-instant", "llama-3-70b-8192",
               "llama-3-8b-8192", "mixtral-8x7b-32768", "gemma-7b-it"] →
      Groq.get_token_limit model = 8192) := by
  refine ⟨fun model => ?_, rfl, rfl, rfl, rfl, rfl, rfl, fun model h => ?_⟩
  · unfold Grok.get_token_limit dictGetNat
    split <;> rename_i h1
    · rfl
    · unfold dictGetNat
      split <;> rfl
  · simp only [List.mem_cons, List.not_mem_nil, or_false, not_or] at h
    obtain ⟨h1, h2, h3, h4, h5, h6⟩ := h
    simp [Groq.get_token_limit, dictGetNat, h1, h2, h3, h4, h5, h6]

/-- C6 witness: the unknown-model branch of c6_token_limit_tables at a
concrete name outside the Groq table. -/
theorem c6_witness : Groq.get_token_limit "mystery-model" = 8192 :=
  c6_token_limit_tables.2.2.2.2.2.2.2 "mystery-model" (by decide)

/-- C7: the claim says environment variables override YAML entries, and the
comment in load_from_yaml says the same, but the YAML mapping is passed as
the pydantic-settings constructor arguments, which outrank environment
variables; a key set in both sources therefore resolves to the YAML value. -/
theorem c7_yaml_overrides_env :
    Config.load_from_yaml [("DB_NAME", "yamldb")] [("DB_NAME", "envdb")]
        "DB_NAME" "super_agi_main" = "yamldb" ∧
    ("yamldb" : String) ≠ "envdb" := ⟨rfl, by decide⟩

/-- Characterization of the message-conversion loop: the forwarded list is
the non-system messages in order, and the accumulated system string is the
content of the last system message, or the empty initial string when none
occurs. -/
theorem Anthropic.convertMessages_spec (messages : List ChatMessage) :
    Anthropic.convertMessages messages =
      (messages.filter (fun m => !(m.role == "system")),
       match (messages.filter (fun m => m.role == "system")).getLast? with
       | some m => m.content
       | none => "") := by
  induction messages using List.reverseRecOn with
  | nil => rfl
  | append_singleton msgs m ih =>
    obtain ⟨r, c⟩ := m
    unfold Anthropic.convertMessages at ih ⊢
    rw [List.foldl_append, ih]
    by_cases hr : r == "system"
    · simp only [List.foldl_cons, List.foldl_nil, List.filter_append]
      simp [hr, List.getLast?_concat]
    · simp only [List.foldl_cons, List.foldl_nil, List.filter_append]
      simp [hr]

/-- C9 counterexample: with two system messages whose last content is the
empty string, the request carries no system prompt at all, while the claim
requires the content of the last system message to be passed. -/
theorem c9_counterexample :
    (Anthropic.buildRequest {}
        [{ role := "system", content := "a" }, { role := "system", content := "" }]
        none).system = none ∧
    (none : Option String) ≠ some "" := ⟨rfl, by decide⟩

/-- C9 as amended: Anthropic.chat_completion removes every system message
from the forwarded list, keeping the non-system messages with their role and
content in order, and passes as system prompt the content of the last system
message when that content is non-empty; when no system message occurs, or
the last one has empty content, no system prompt is passed. -/
theorem c9_system_message_handling
    (self : Anthropic) (messages : List ChatMessage) (maxTokens : Option Nat) :
    (Anthropic.buildRequest self messages maxTokens).messages =
      messages.filter (fun m => !(m.role == "system")) ∧
    (Anthropic.buildRequest self messages maxTokens).system =
      (match (messages.filter (fun m => m.role == "system")).getLast? with
       | some m => if m.content = "" then none else some m.content
       | none => none) := by
  unfold Anthropic.buildRequest
  rw [Anthropic.convertMessages_spec]
  rcases hl : (messages.filter (fun m => m.role == "system")).getLast? with _ | m
  · rw [hl]
    exact ⟨rfl, rfl⟩
  · rw [hl]
    dsimp only
    split_ifs with hm <;> first | exact ⟨rfl, rfl⟩ | simp_all

end SuperAGI
